import Mathlib

/-!
Verification of the counter-consistency subsystem of the UnitedPanelSystem
backend: the `updateProjectCounts` helper (src/routes/projectUpdater.js), the
per-category task CRUD handlers that call it (src/routes/panelTasks.js,
src/routes/accessoriesTasks.js, the cutting-tasks router, the door-tasks
router), and the `calculateCompletionPercentage` aggregator together with the
file-deletion counter step (src/routes/projectRoutes.js).

Modelling conventions:
- JavaScript strings are Lean `String`; the JS truthiness test on a string
  (`s ? a : b`) is the test `s == ""`; an absent (undefined) request field is
  `Option.none`, a present field `Option.some`.
- JS numbers carried by the counter columns are `Int` (the SQL columns are
  plain integers); the aggregator percentage is computed over `Rat` with
  `Math.round x` embedded as `Int.floor (x + 1/2)`, which is exactly the
  JS rounding rule for finite arguments.
- A database row of a task table keeps only the columns the counter and
  aggregation logic reads (`id`, `status`, `project_no`); the remaining
  columns (title, description, priority, due_date, created_at) are never
  read by any code under verification and are elided from the row type.
  Request bodies keep the fields the handlers validate or insert.
- `pool.execute` of the counter UPDATE statement is a function of the
  projects table plus a flag `dbError` standing for an underlying driver
  failure; the task-table statements of the same handlers are modelled as
  infallible, since every claim under consideration conditions on the row
  mutation succeeding.
-/

namespace UPS

/-- One row of the `projects` table: the business key plus the numeric
counter columns, addressed by column name exactly as the SQL does. -/
structure Project where
  projectNo : String
  cols : String → Int

/-- One row of a task table, restricted to the columns the counter and
aggregation logic reads. -/
structure Task where
  id : Nat
  status : String
  project_no : String
deriving DecidableEq

/-- Observable outcome of one Counter Updater call: the success log line, the
`console.warn` for zero affected rows, or the `console.error` of the catch
block in `updateProjectCounts`. -/
inductive CounterLog where
  | updated (column projectNo : String) (delta : Int)
  | warnNoMatch (column projectNo : String)
  | dbError (column projectNo : String)
deriving DecidableEq

/-- Point update of one named counter column, as done by
`UPDATE projects SET col = col + ?`. -/
def updateCol (cols : String → Int) (col : String) (delta : Int) : String → Int :=
  fun c => if c == col then cols c + delta else cols c

/-- Effect of the counter UPDATE statement on one projects row: rows whose
`projectNo` matches get the named column shifted by `delta`. -/
def applyCounterUpdate (column : String) (delta : Int) (projectNo : String)
    (p : Project) : Project :=
  if p.projectNo == projectNo then { p with cols := updateCol p.cols column delta } else p

/-- `results.affectedRows` of the counter UPDATE: how many projects rows match
the WHERE clause. -/
def affectedRows (projects : List Project) (projectNo : String) : Nat :=
  (projects.filter (fun p => p.projectNo == projectNo)).length

/-- `pool.execute(updateSql, [safeDelta, projectNo])` in
`updateProjectCounts`: either the driver fails (`dbError`) or the UPDATE is
applied and the affected-row count reported. -/
def executeCounterUpdate (dbError : Bool) (projects : List Project)
    (column : String) (delta : Int) (projectNo : String) :
    Except String (List Project × Nat) :=
  if dbError then Except.error "database error"
  else Except.ok (projects.map (applyCounterUpdate column delta projectNo),
                  affectedRows projects projectNo)

/-- Body of `updateProjectCounts` (src/routes/projectUpdater.js:12-30) before
its catch block: the column name is composed as `countType_taskType`, the
delta is coerced to exactly 1 or -1, and the UPDATE outcome is logged.  A
driver error at this level still propagates. -/
def updateProjectCountsRaw (dbError : Bool) (projects : List Project)
    (projectNo taskType countType : String) (delta : Int) :
    Except String (List Project × CounterLog) :=
  let column := countType ++ "_" ++ taskType
  let safeDelta : Int := if delta > 0 then 1 else -1
  match executeCounterUpdate dbError projects column safeDelta projectNo with
  | Except.error e => Except.error e
  | Except.ok (ps, n) =>
      if n = 0 then Except.ok (ps, CounterLog.warnNoMatch column projectNo)
      else Except.ok (ps, CounterLog.updated column projectNo safeDelta)

/-- `updateProjectCounts` (src/routes/projectUpdater.js:12-36): the catch
block logs a database error and swallows it, so the caller always receives a
normal result. -/
def updateProjectCounts (dbError : Bool) (projects : List Project)
    (projectNo taskType countType : String) (delta : Int) :
    List Project × CounterLog :=
  match updateProjectCountsRaw dbError projects projectNo taskType countType delta with
  | Except.ok r => r
  | Except.error _ =>
      (projects, CounterLog.dbError (countType ++ "_" ++ taskType) projectNo)

/-- Value of one counter column of the projects row keyed by `pno` (0 when no
row matches, mirroring a SELECT that finds nothing). -/
def colVal (projects : List Project) (pno col : String) : Int :=
  match projects.find? (fun pr => pr.projectNo == pno) with
  | some pr => pr.cols col
  | none => 0

/-- JS `String.prototype.toLowerCase` on the ASCII status vocabulary of this
backend, written as a structural map so that concrete instances evaluate. -/
def jsToLower (s : String) : String := String.mk (s.data.map Char.toLower)

/-- JS `String.prototype.trim`, written structurally for the same reason. -/
def jsTrim (s : String) : String :=
  String.mk (((s.data.dropWhile Char.isWhitespace).reverse.dropWhile Char.isWhitespace).reverse)

/-- `status.toLowerCase() === "completed"`: the status test every counter
call site uses. -/
def isCompletedStatus (s : String) : Bool := jsToLower s == "completed"

/-- `x || dflt` on an optional JS string field: undefined and the empty
string both fall back to the default. -/
def jsOrDefault (o : Option String) (dflt : String) : String :=
  match o with
  | some s => if s == "" then dflt else s
  | none => dflt

/-- Database state seen by one task-category router: the projects table, that
category task table, and the AUTO_INCREMENT cursor of the task table. -/
structure DbState where
  projects : List Project
  tasks : List Task
  nextId : Nat

/-- Request body of a task POST, with the fields the handler validates or
uses for counters (description, priority and due_date never reach the
counter logic). -/
structure CreateBody where
  title : String
  status : Option String
  project_no : String

/-- Request body of a task PATCH: the two counter-relevant fields plus a
flag recording whether any other allowed field (title, description,
priority, due_date) is present, which is all the handler checks about
them. -/
structure UpdateBody where
  status : Option String
  project_no : Option String
  other : Bool

/-- The row written by the dynamic UPDATE of a PATCH: a present `status` or
`project_no` is written verbatim (the empty string included, since the
handler only maps the empty string to NULL for description and due_date). -/
def applyTaskUpdate (u : UpdateBody) (t : Task) : Task :=
  { t with status := u.status.getD t.status, project_no := u.project_no.getD t.project_no }

/-- POST /api/`cat`-tasks (src/routes/panelTasks.js:40-100; the accessories,
cutting, strip-curtain and system POST handlers are the same code with their
own `TASK_TYPE_PREFIX`): validate, insert with `status || "pending"`,
increment `total_cat`, and increment `completed_cat` when the initial status
is completed.  Returns the new state, the counter logs, and the HTTP
status. -/
def taskPost (cat : String) (dbErr : Bool) (st : DbState) (b : CreateBody) :
    DbState × List CounterLog × Nat :=
  if jsTrim b.title == "" then (st, [], 400)
  else if jsTrim b.project_no == "" then (st, [], 400)
  else
    let initialStatus := jsOrDefault b.status "pending"
    let newTask : Task := ⟨st.nextId, initialStatus, b.project_no⟩
    let tasks1 := st.tasks ++ [newTask]
    let r1 := updateProjectCounts dbErr st.projects b.project_no cat "total" 1
    let r2 :=
      if jsToLower initialStatus == "completed" then
        let r := updateProjectCounts dbErr r1.1 b.project_no cat "completed" 1
        (r.1, [r.2])
      else (r1.1, [])
    (⟨r2.1, tasks1, st.nextId + 1⟩, r1.2 :: r2.2, 201)

/-- PATCH /api/`cat`-tasks/:id (src/routes/panelTasks.js:106-180; identical
in src/routes/accessoriesTasks.js:100-172): write the provided fields, then
adjust `completed_cat` on the PREVIOUS project number when the effective
status (the supplied one when truthy, else the previous one) crosses the
completed boundary. -/
def taskPatch (cat : String) (dbErr : Bool) (st : DbState) (taskId : Nat)
    (u : UpdateBody) : DbState × List CounterLog × Nat :=
  if u.status.isNone && u.project_no.isNone && !u.other then (st, [], 400)
  else
    match st.tasks.find? (fun t => t.id == taskId) with
    | none => (st, [], 404)
    | some prev =>
        let tasks1 := st.tasks.map (fun t => if t.id == taskId then applyTaskUpdate u t else t)
        let newStatus :=
          match u.status with
          | some s => if s == "" then jsToLower prev.status else jsToLower s
          | none => jsToLower prev.status
        let oldStatus := jsToLower prev.status
        let r :=
          if newStatus == "completed" && !(oldStatus == "completed") then
            let r := updateProjectCounts dbErr st.projects prev.project_no cat "completed" 1
            (r.1, [r.2])
          else if !(newStatus == "completed") && oldStatus == "completed" then
            let r := updateProjectCounts dbErr st.projects prev.project_no cat "completed" (-1)
            (r.1, [r.2])
          else (st.projects, [])
        (⟨r.1, tasks1, st.nextId⟩, r.2, 200)

/-- DELETE /api/`cat`-tasks/:id (src/routes/panelTasks.js:187-221; identical
in src/routes/accessoriesTasks.js:177-210 and the cutting router): fetch the
row, delete it, decrement `total_cat`, and decrement `completed_cat` when the
deleted row was completed. -/
def taskDelete (cat : String) (dbErr : Bool) (st : DbState) (taskId : Nat) :
    DbState × List CounterLog × Nat :=
  match st.tasks.find? (fun t => t.id == taskId) with
  | none => (st, [], 404)
  | some t0 =>
      let tasks1 := st.tasks.filter (fun t => !(t.id == taskId))
      let r1 := updateProjectCounts dbErr st.projects t0.project_no cat "total" (-1)
      let r2 :=
        if jsToLower t0.status == "completed" then
          let r := updateProjectCounts dbErr r1.1 t0.project_no cat "completed" (-1)
          (r.1, [r.2])
        else (r1.1, [])
      (⟨r2.1, tasks1, st.nextId⟩, r1.2 :: r2.2, 200)

/-- PATCH /api/cutting-tasks/:id (src/unnamed/part_004:1310-1403): like the
panel PATCH, but with a project-transfer branch.  The effective new project
is `updates.project_no || oldProjectNo`; when it differs from the old one the
old project loses a total (and a completed when the old status was
completed) and the new project gains a total (and a completed when the
effective new status is completed). -/
def cuttingPatch (dbErr : Bool) (st : DbState) (taskId : Nat) (u : UpdateBody) :
    DbState × List CounterLog × Nat :=
  if u.status.isNone && u.project_no.isNone && !u.other then (st, [], 400)
  else
    match st.tasks.find? (fun t => t.id == taskId) with
    | none => (st, [], 404)
    | some prev =>
        let tasks1 := st.tasks.map (fun t => if t.id == taskId then applyTaskUpdate u t else t)
        let oldProjectNo := prev.project_no
        let newProjectNo :=
          match u.project_no with
          | some s => if s == "" then oldProjectNo else s
          | none => oldProjectNo
        let oldStatus := jsToLower prev.status
        let newStatus :=
          match u.status with
          | some s => if s == "" then oldStatus else jsToLower s
          | none => oldStatus
        let r :=
          if !(oldProjectNo == newProjectNo) then
            let a1 := updateProjectCounts dbErr st.projects oldProjectNo "cutting" "total" (-1)
            let a2 :=
              if oldStatus == "completed" then
                let r := updateProjectCounts dbErr a1.1 oldProjectNo "cutting" "completed" (-1)
                (r.1, [r.2])
              else (a1.1, [])
            let a3 := updateProjectCounts dbErr a2.1 newProjectNo "cutting" "total" 1
            let a4 :=
              if newStatus == "completed" then
                let r := updateProjectCounts dbErr a3.1 newProjectNo "cutting" "completed" 1
                (r.1, [r.2])
              else (a3.1, [])
            (a4.1, a1.2 :: a2.2 ++ a3.2 :: a4.2)
          else
            if newStatus == "completed" && !(oldStatus == "completed") then
              let r := updateProjectCounts dbErr st.projects newProjectNo "cutting" "completed" 1
              (r.1, [r.2])
            else if !(newStatus == "completed") && oldStatus == "completed" then
              let r := updateProjectCounts dbErr st.projects newProjectNo "cutting" "completed" (-1)
              (r.1, [r.2])
            else (st.projects, [])
        (⟨r.1, tasks1, st.nextId⟩, r.2, 200)

/-- One row of `door_tasks`: the door POST applies no default, so `status`
is whatever the request carried. -/
structure DoorTask where
  id : Nat
  status : Option String
  project_no : String
deriving DecidableEq

/-- POST /api/door-tasks (src/routes/panelTasks.js:253-295, the door-tasks
router): validates title and project number and inserts the row; it neither
defaults the status nor calls `updateProjectCounts`.  An omitted status is an
undefined bind parameter, which the mysql2 driver rejects, so that request
fails with 500 and changes nothing.  Returns projects, door table,
AUTO_INCREMENT cursor, and the HTTP status. -/
def doorPost (projects : List Project) (doorTasks : List DoorTask) (nextId : Nat)
    (b : CreateBody) : List Project × List DoorTask × Nat × Nat :=
  if jsTrim b.title == "" then (projects, doorTasks, nextId, 400)
  else if jsTrim b.project_no == "" then (projects, doorTasks, nextId, 400)
  else
    match b.status with
    | none => (projects, doorTasks, nextId, 500)
    | some s => (projects, doorTasks ++ [⟨nextId, some s, b.project_no⟩], nextId + 1, 201)

/-- `Math.round` on a finite JS number: floor of the argument plus one
half. -/
def jsRound (q : ℚ) : Int := ⌊q + 1 / 2⌋

/-- The percentage expression of `calculateCompletionPercentage`
(src/routes/projectRoutes.js:106-108):
`total > 0 ? Math.round((completed / total) * 100) : 0`. -/
def percentageOf (completed total : Nat) : Int :=
  if 0 < total then jsRound ((completed : ℚ) / (total : ℚ) * 100) else 0

/-- The SQL completed test of the aggregator
(`status = 'Completed' OR status = 'Done'`); MySQL string equality under the
default `_ci` collation is case-insensitive. -/
def sqlCompletedMatch (s : String) : Bool :=
  jsToLower s == "completed" || jsToLower s == "done"

/-- One `{completed, total, percentage}` entry of the completion object. -/
structure CatCompletion where
  completed : Nat
  total : Nat
  percentage : Int
deriving DecidableEq

/-- The completion object of `calculateCompletionPercentage`, one entry per
aggregated category, under the keys the source uses. -/
structure Completion where
  panelSlab : CatCompletion
  cutting : CatCompletion
  door : CatCompletion
  stripCurtain : CatCompletion
  accessories : CatCompletion
  system : CatCompletion
deriving DecidableEq

/-- The aggregate query of one category: `COUNT(*)` over the rows of the
category table with the given project number, and the number of those rows
whose status matches the SQL completed test, with the percentage
expression. -/
def calcCat (table : List Task) (pno : String) : CatCompletion :=
  let total := table.countP (fun t => t.project_no == pno)
  let completed := table.countP (fun t => t.project_no == pno && sqlCompletedMatch t.status)
  ⟨completed, total, percentageOf completed total⟩

/-- Fetch of one category inside the aggregation loop: `fail` names the task
tables whose `db.query` throws. -/
def fetchCat (fail : String → Bool) (tableName : String) (table : List Task)
    (pno : String) : Except String CatCompletion :=
  if fail tableName then Except.error ("query failed: " ++ tableName)
  else Except.ok (calcCat table pno)

/-- The six task tables the aggregator scans. -/
structure TaskTables where
  panel : List Task
  cutting : List Task
  door : List Task
  stripCurtain : List Task
  accessories : List Task
  system : List Task

/-- `calculateCompletionPercentage` (src/routes/projectRoutes.js:71-117):
sequentially aggregates the six category tables in source order; the catch
block rethrows, so the first failing fetch aborts the whole aggregation. -/
def calculateCompletionPercentage (fail : String → Bool) (tables : TaskTables)
    (projectNo : String) : Except String Completion := do
  let panelSlab ← fetchCat fail "panel_tasks" tables.panel projectNo
  let cutting ← fetchCat fail "cutting_tasks" tables.cutting projectNo
  let door ← fetchCat fail "door_tasks" tables.door projectNo
  let stripCurtain ← fetchCat fail "strip_curtain_tasks" tables.stripCurtain projectNo
  let accessories ← fetchCat fail "accessories_tasks" tables.accessories projectNo
  let system ← fetchCat fail "system_tasks" tables.system projectNo
  return ⟨panelSlab, cutting, door, stripCurtain, accessories, system⟩

/-- The zero-filled completion object the project-list handler substitutes
when the aggregation of one project fails
(src/routes/projectRoutes.js:606-616). -/
def zeroCompletion : Completion :=
  ⟨⟨0, 0, 0⟩, ⟨0, 0, 0⟩, ⟨0, 0, 0⟩, ⟨0, 0, 0⟩, ⟨0, 0, 0⟩, ⟨0, 0, 0⟩⟩

/-- Per-project completion computed by GET /api/projects
(src/routes/projectRoutes.js:596-619): the per-project try/catch degrades an
aggregation failure to the zero-filled object. -/
def projectCompletionEntry (fail : String → Bool) (tables : TaskTables)
    (pno : String) : Completion :=
  match calculateCompletionPercentage fail tables pno with
  | Except.ok c => c
  | Except.error _ => zeroCompletion

/-- GET /api/projects over the listed project numbers: each project gets its
(possibly degraded) completion and the list request itself succeeds. -/
def getProjectsHandler (fail : String → Bool) (tables : TaskTables)
    (projectNos : List String) : Except String (List (String × Completion)) :=
  Except.ok (projectNos.map (fun pno => (pno, projectCompletionEntry fail tables pno)))

/-- The `categoryToColumn` object of the DELETE /api/projects/file/:id
handler (src/routes/projectRoutes.js:458-467), transcribed verbatim: note
the `system`, `transportation` and `quotation` entries carry task-table
names, not counter columns. -/
def fileDeleteCategoryToColumn : List (String × String) :=
  [("cutting", "total_cutting"), ("panel", "total_panel"), ("door", "total_door"),
   ("strip_curtain", "total_strip_curtain"), ("accessories", "total_accessories"),
   ("system", "system_tasks"), ("transportation", "transportation_tasks"),
   ("quotation", "quotation_tasks")]

/-- The `categoryToColumn` object of the upload handler in the same file
(src/routes/projectRoutes.js:284-293), which maps every category to its
`total_` column. -/
def uploadCategoryToColumn : List (String × String) :=
  [("cutting", "total_cutting"), ("panel", "total_panel"), ("door", "total_door"),
   ("strip_curtain", "total_strip_curtain"), ("accessories", "total_accessories"),
   ("system", "total_system"), ("transportation", "total_transportation"),
   ("quotation", "total_quotation")]

/-- The counter step of DELETE /api/projects/file/:id
(src/routes/projectRoutes.js:506-518): when the file category maps to a
column, run `UPDATE projects SET col = GREATEST(0, col - 1)` on the file
project; the completed columns are never touched. -/
def fileDeleteCounterStep (category : String) (projects : List Project)
    (pno : String) : List Project :=
  match fileDeleteCategoryToColumn.lookup category with
  | some col =>
      projects.map (fun p =>
        if p.projectNo == pno then
          { p with cols := fun c => if c == col then max 0 (p.cols c - 1) else p.cols c }
        else p)
  | none => projects

/-- One client operation of the single-project, single-category lifecycle of
claim C1: the request bodies of a POST, PATCH or DELETE on the category
router, with the PATCH restricted to the fields that keep the task in its
project. -/
inductive Op where
  | create (title : String) (status : Option String)
  | update (taskId : Nat) (status : Option String) (other : Bool)
  | delete (taskId : Nat)

/-- Dispatch one operation to the corresponding handler, with the database
driver healthy. -/
def applyOp (cat p : String) (st : DbState) : Op → DbState × List CounterLog × Nat
  | Op.create title status => taskPost cat false st ⟨title, status, p⟩
  | Op.update taskId status other => taskPatch cat false st taskId ⟨status, none, other⟩
  | Op.delete taskId => taskDelete cat false st taskId

/-- Fresh project: one projects row whose counters are all zero and an empty
task table. -/
def initState (p : String) : DbState := ⟨[⟨p, fun _ => 0⟩], [], 1⟩

/-- Run a sequence of operations from the fresh project, accumulating every
Counter Updater log line. -/
def runOps (cat p : String) (ops : List Op) : DbState × List CounterLog :=
  ops.foldl (fun acc op =>
    let r := applyOp cat p acc.1 op
    (r.1, acc.2 ++ r.2.1)) (initState p, [])

/-- A Counter Updater call succeeded: its log line is the success line. -/
def CounterLog.isSuccess : CounterLog → Bool
  | CounterLog.updated _ _ _ => true
  | _ => false

/-- Every Counter Updater call of the trace succeeded. -/
def callsOk (logs : List CounterLog) : Bool := logs.all CounterLog.isSuccess

/-- Live row count of the category table for one project. -/
def liveTotal (tasks : List Task) (p : String) : Nat :=
  tasks.countP (fun t => t.project_no == p)

/-- Live count of the completed rows (counter-path test: status lowercases
to "completed") of the category table for one project. -/
def liveCompleted (tasks : List Task) (p : String) : Nat :=
  tasks.countP (fun t => t.project_no == p && isCompletedStatus t.status)

/-- The counter-consistency property of claim C1: the two counter columns of
the project equal the live row counts. -/
def countersMatch (st : DbState) (cat p : String) : Prop :=
  colVal st.projects p ("total_" ++ cat) = (liveTotal st.tasks p : Int) ∧
  colVal st.projects p ("completed_" ++ cat) = (liveCompleted st.tasks p : Int)

instance (st : DbState) (cat p : String) : Decidable (countersMatch st cat p) := by
  unfold countersMatch; infer_instance

/-- An operation whose PATCH body does not carry a present-but-falsy status
(the empty string): the amendment claim C1 is forced to make. -/
def goodOp : Op → Bool
  | Op.update _ (some s) _ => s != ""
  | _ => true

/-- Structural facts preserved by every operation of the claim-C1 machine:
the projects table is the single project row, every task row belongs to that
project, task ids are pairwise distinct, and every id is below the
AUTO_INCREMENT cursor. -/
def StInv (p : String) (st : DbState) : Prop :=
  (∃ cols, st.projects = [⟨p, cols⟩]) ∧
  (∀ t ∈ st.tasks, t.project_no = p) ∧
  st.tasks.Pairwise (fun a b => a.id ≠ b.id) ∧
  (∀ t ∈ st.tasks, t.id < st.nextId)

/-- The percentage formula in the words of claim C7 (spec side of the
refinement): `round(100 * completed / total)` with half-up integer rounding
when `total > 0`, else `0`. -/
def specPercentage (completed total : Nat) : Int :=
  if 0 < total then ⌊(100 * (completed : ℚ)) / (total : ℚ) + 1 / 2⌋ else 0

/-- The concrete panel table of claim C6: three tasks of one project, two
with status `Completed`, one `pending`. -/
def c6PanelTable : List Task :=
  [⟨1, "Completed", "P1"⟩, ⟨2, "Completed", "P1"⟩, ⟨3, "pending", "P1"⟩]

/-- The task tables of claim C6: the panel rows above and no rows in any
other category. -/
def c6Tables : TaskTables := ⟨c6PanelTable, [], [], [], [], []⟩

/-- The operation sequence refuting claim C1 as stated: create a task with
status `completed`, then PATCH it with the present-but-falsy status `""`.
The PATCH writes the empty status to the row (it is not `undefined`) but the
truthiness test on `updates.status` makes the counter logic compare the old
status with itself, so no counter call is made. -/
def c1BadOps : List Op :=
  [Op.create "t" (some "completed"), Op.update 1 (some "") false]

/-! ## Helper lemmas about the Counter Updater -/

theorem updateProjectCounts_false (projects : List Project) (pno tt ct : String) (δ : Int) :
    updateProjectCounts false projects pno tt ct δ =
      (projects.map (applyCounterUpdate (ct ++ "_" ++ tt) (if δ > 0 then 1 else -1) pno),
       if affectedRows projects pno = 0 then CounterLog.warnNoMatch (ct ++ "_" ++ tt) pno
       else CounterLog.updated (ct ++ "_" ++ tt) pno (if δ > 0 then 1 else -1)) := by
  unfold updateProjectCounts updateProjectCountsRaw executeCounterUpdate
  by_cases h : affectedRows projects pno = 0 <;> simp [h]

theorem updateProjectCounts_true (projects : List Project) (pno tt ct : String) (δ : Int) :
    updateProjectCounts true projects pno tt ct δ =
      (projects, CounterLog.dbError (ct ++ "_" ++ tt) pno) := by
  unfold updateProjectCounts updateProjectCountsRaw executeCounterUpdate
  simp

theorem map_applyCounterUpdate_of_no_match (projects : List Project) (col : String)
    (δ : Int) (pno : String) (h : affectedRows projects pno = 0) :
    projects.map (applyCounterUpdate col δ pno) = projects := by
  unfold affectedRows at h
  rw [List.length_eq_zero, List.filter_eq_nil_iff] at h
  have : ∀ p ∈ projects, applyCounterUpdate col δ pno p = p := by
    intro p hp
    have hne := h p hp
    simp only [Bool.not_eq_true] at hne
    simp [applyCounterUpdate, hne]
  calc projects.map (applyCounterUpdate col δ pno) = projects.map id := List.map_congr_left this
  _ = projects := List.map_id projects

theorem updateProjectCounts_single (p : String) (cols : String → Int)
    (tt ct : String) (δ : Int) :
    updateProjectCounts false [⟨p, cols⟩] p tt ct δ =
      ([⟨p, updateCol cols (ct ++ "_" ++ tt) (if δ > 0 then 1 else -1)⟩],
       CounterLog.updated (ct ++ "_" ++ tt) p (if δ > 0 then 1 else -1)) := by
  rw [updateProjectCounts_false]
  simp [affectedRows, applyCounterUpdate]

theorem updateProjectCounts_pair_first (A B : String) (fA fB : String → Int)
    (tt ct : String) (δ : Int) (h : A ≠ B) :
    updateProjectCounts false [⟨A, fA⟩, ⟨B, fB⟩] A tt ct δ =
      ([⟨A, updateCol fA (ct ++ "_" ++ tt) (if δ > 0 then 1 else -1)⟩, ⟨B, fB⟩],
       CounterLog.updated (ct ++ "_" ++ tt) A (if δ > 0 then 1 else -1)) := by
  rw [updateProjectCounts_false]
  simp [affectedRows, applyCounterUpdate, Ne.symm h]

theorem updateProjectCounts_pair_second (A B : String) (fA fB : String → Int)
    (tt ct : String) (δ : Int) (h : A ≠ B) :
    updateProjectCounts false [⟨A, fA⟩, ⟨B, fB⟩] B tt ct δ =
      ([⟨A, fA⟩, ⟨B, updateCol fB (ct ++ "_" ++ tt) (if δ > 0 then 1 else -1)⟩],
       CounterLog.updated (ct ++ "_" ++ tt) B (if δ > 0 then 1 else -1)) := by
  rw [updateProjectCounts_false]
  simp [affectedRows, applyCounterUpdate, h]

theorem colVal_single (p : String) (cols : String → Int) (col : String) :
    colVal [⟨p, cols⟩] p col = cols col := by
  simp [colVal]

theorem colVal_pair_first (A B : String) (fA fB : String → Int) (col : String) :
    colVal [⟨A, fA⟩, ⟨B, fB⟩] A col = fA col := by
  simp [colVal]

theorem colVal_pair_second (A B : String) (fA fB : String → Int) (col : String)
    (h : A ≠ B) : colVal [⟨A, fA⟩, ⟨B, fB⟩] B col = fB col := by
  have hab : (A == B) = false := by simp [h]
  simp [colVal, List.find?, hab]

theorem colVal_map_applyCounterUpdate_ne (projects : List Project) (col : String)
    (δ : Int) (pno q c : String) (h : c ≠ col) :
    colVal (projects.map (applyCounterUpdate col δ pno)) q c = colVal projects q c := by
  induction projects with
  | nil => rfl
  | cons hd tl ih =>
      have hproj : (applyCounterUpdate col δ pno hd).projectNo = hd.projectNo := by
        unfold applyCounterUpdate
        by_cases hm : (hd.projectNo == pno) = true <;> simp [hm]
      by_cases hm2 : (hd.projectNo == q) = true
      · by_cases hm : (hd.projectNo == pno) = true
        · simp [colVal, List.find?_cons, applyCounterUpdate, hm, hm2, updateCol, h]
        · simp [colVal, List.find?_cons, applyCounterUpdate, hm, hm2]
      · have hm2f : (hd.projectNo == q) = false := by simpa using hm2
        unfold colVal
        rw [List.map_cons, List.find?_cons, List.find?_cons]
        simp only [hproj, hm2f]
        exact ih

theorem updateCol_same (cols : String → Int) (col : String) (δ : Int) :
    updateCol cols col δ col = cols col + δ := by
  simp [updateCol]

theorem updateCol_other (cols : String → Int) (col : String) (δ : Int) (c : String)
    (h : c ≠ col) : updateCol cols col δ c = cols c := by
  simp [updateCol, h]

theorem total_col_ne_completed_col (cat : String) :
    ("total_" ++ cat) ≠ ("completed_" ++ cat) := by
  intro h
  have h2 := congrArg String.length h
  simp [String.length_append] at h2
  exact absurd h2 (by decide)

/-! ## Counting lemmas for the task table -/

theorem countP_map_update (l : List Task) (taskId : Nat) (g : Task → Task) (q : Task → Bool)
    (t0 : Task) (hfind : l.find? (fun t => t.id == taskId) = some t0)
    (hpw : l.Pairwise (fun a b => a.id ≠ b.id)) :
    (l.map (fun t => if t.id == taskId then g t else t)).countP q + (if q t0 then 1 else 0)
      = l.countP q + (if q (g t0) then 1 else 0) := by
  induction l with
  | nil => simp at hfind
  | cons hd tl ih =>
      rw [List.pairwise_cons] at hpw
      obtain ⟨hhd, hpwtl⟩ := hpw
      by_cases hc : (hd.id == taskId) = true
      · have ht0 : t0 = hd := by
          simp only [List.find?_cons, hc] at hfind
          exact (Option.some_inj.mp hfind).symm
        subst ht0
        have hid : t0.id = taskId := by simpa using hc
        have htl : tl.map (fun t => if t.id == taskId then g t else t) = tl := by
          have hcong : ∀ t ∈ tl, (if t.id == taskId then g t else t) = t := by
            intro t htmem
            have hne : t0.id ≠ t.id := hhd t htmem
            have : (t.id == taskId) = false := by
              simp only [beq_eq_false_iff_ne]
              intro he
              exact hne (by rw [hid, he])
            simp [this]
          calc tl.map (fun t => if t.id == taskId then g t else t) = tl.map id :=
                List.map_congr_left hcong
          _ = tl := List.map_id tl
        rw [List.map_cons, if_pos hc, htl, List.countP_cons, List.countP_cons]
        cases hq : q t0 <;> cases hqg : q (g t0) <;> simp [hq, hqg]
      · have hcf : (hd.id == taskId) = false := by simpa using hc
        simp only [List.find?_cons, hcf] at hfind
        rw [List.map_cons, if_neg hc, List.countP_cons, List.countP_cons]
        have hrec := ih hfind hpwtl
        generalize (if q t0 then 1 else 0) = a at hrec ⊢
        generalize (if q (g t0) then 1 else 0) = b at hrec ⊢
        generalize (if q hd then 1 else 0) = c
        omega

theorem countP_filter_ne (l : List Task) (taskId : Nat) (q : Task → Bool) (t0 : Task)
    (hfind : l.find? (fun t => t.id == taskId) = some t0)
    (hpw : l.Pairwise (fun a b => a.id ≠ b.id)) :
    (l.filter (fun t => !(t.id == taskId))).countP q + (if q t0 then 1 else 0)
      = l.countP q := by
  induction l with
  | nil => simp at hfind
  | cons hd tl ih =>
      rw [List.pairwise_cons] at hpw
      obtain ⟨hhd, hpwtl⟩ := hpw
      by_cases hc : (hd.id == taskId) = true
      · have ht0 : t0 = hd := by
          simp only [List.find?_cons, hc] at hfind
          exact (Option.some_inj.mp hfind).symm
        subst ht0
        have hid : t0.id = taskId := by simpa using hc
        have htl : tl.filter (fun t => !(t.id == taskId)) = tl := by
          apply List.filter_eq_self.mpr
          intro t htmem
          have hne : t0.id ≠ t.id := hhd t htmem
          have : (t.id == taskId) = false := by
            simp only [beq_eq_false_iff_ne]
            intro he
            exact hne (by rw [hid, he])
          simp [this]
        rw [List.filter_cons, List.countP_cons]
        simp only [hc, Bool.not_true, Bool.false_eq_true, if_false, htl]
      · have hcf : (hd.id == taskId) = false := by simpa using hc
        simp only [List.find?_cons, hcf] at hfind
        rw [List.filter_cons, List.countP_cons]
        simp only [hc, Bool.not_false, if_true, List.countP_cons]
        have hrec := ih hfind hpwtl
        generalize (if q t0 then 1 else 0) = a at hrec ⊢
        generalize (if q hd then 1 else 0) = c
        omega

theorem liveTotal_append_new (tasks : List Task) (p : String) (n : Nat) (s : String) :
    liveTotal (tasks ++ [⟨n, s, p⟩]) p = liveTotal tasks p + 1 := by
  unfold liveTotal
  rw [List.countP_append]
  simp

theorem liveCompleted_append_new (tasks : List Task) (p : String) (n : Nat) (s : String) :
    liveCompleted (tasks ++ [⟨n, s, p⟩]) p
      = liveCompleted tasks p + (if isCompletedStatus s then 1 else 0) := by
  unfold liveCompleted
  rw [List.countP_append]
  by_cases h : isCompletedStatus s = true <;> simp [h]

theorem patch_map_structural (tasks : List Task) (taskId : Nat) (us : Option String)
    (uo : Bool) (p : String) (nextId : Nat)
    (hall : ∀ t ∈ tasks, t.project_no = p)
    (hpw : tasks.Pairwise (fun a b => a.id ≠ b.id))
    (hlt : ∀ t ∈ tasks, t.id < nextId) :
    (∀ t ∈ tasks.map (fun t => if t.id == taskId then applyTaskUpdate ⟨us, none, uo⟩ t else t),
        t.project_no = p) ∧
    (tasks.map (fun t => if t.id == taskId then applyTaskUpdate ⟨us, none, uo⟩ t else t)).Pairwise
        (fun a b => a.id ≠ b.id) ∧
    (∀ t ∈ tasks.map (fun t => if t.id == taskId then applyTaskUpdate ⟨us, none, uo⟩ t else t),
        t.id < nextId) := by
  have hidp : ∀ t : Task,
      (if t.id == taskId then applyTaskUpdate ⟨us, none, uo⟩ t else t).id = t.id := by
    intro t
    by_cases h : (t.id == taskId) = true <;> simp [h, applyTaskUpdate]
  have hprojp : ∀ t : Task,
      (if t.id == taskId then applyTaskUpdate ⟨us, none, uo⟩ t else t).project_no
        = t.project_no := by
    intro t
    by_cases h : (t.id == taskId) = true <;> simp [h, applyTaskUpdate]
  refine ⟨?_, ?_, ?_⟩
  · intro t2 ht2
    obtain ⟨t, ht, rfl⟩ := List.mem_map.mp ht2
    rw [hprojp]
    exact hall t ht
  · rw [List.pairwise_map]
    exact hpw.imp (by intro a b h; rw [hidp, hidp]; exact h)
  · intro t2 ht2
    obtain ⟨t, ht, rfl⟩ := List.mem_map.mp ht2
    rw [hidp]
    exact hlt t ht

theorem liveTotal_map_update (tasks : List Task) (taskId : Nat) (us : Option String)
    (uo : Bool) (prev : Task) (p : String)
    (hf : tasks.find? (fun t => t.id == taskId) = some prev)
    (hpw : tasks.Pairwise (fun a b => a.id ≠ b.id))
    (hprevp : prev.project_no = p) :
    liveTotal (tasks.map (fun t => if t.id == taskId then applyTaskUpdate ⟨us, none, uo⟩ t else t)) p
      = liveTotal tasks p := by
  have h := countP_map_update tasks taskId (applyTaskUpdate ⟨us, none, uo⟩)
    (fun t => t.project_no == p) prev hf hpw
  have hq1 : (prev.project_no == p) = true := by simp [hprevp]
  have hq2 : ((applyTaskUpdate ⟨us, none, uo⟩ prev).project_no == p) = true := by
    simp [applyTaskUpdate, hprevp]
  simp only [hq1, hq2, if_true] at h
  unfold liveTotal
  omega

theorem liveCompleted_map_update (tasks : List Task) (taskId : Nat) (us : Option String)
    (uo : Bool) (prev : Task) (p : String)
    (hf : tasks.find? (fun t => t.id == taskId) = some prev)
    (hpw : tasks.Pairwise (fun a b => a.id ≠ b.id))
    (hprevp : prev.project_no = p) :
    liveCompleted (tasks.map (fun t => if t.id == taskId then applyTaskUpdate ⟨us, none, uo⟩ t else t)) p
        + (if isCompletedStatus prev.status then 1 else 0)
      = liveCompleted tasks p + (if isCompletedStatus (us.getD prev.status) then 1 else 0) := by
  have h := countP_map_update tasks taskId (applyTaskUpdate ⟨us, none, uo⟩)
    (fun t => t.project_no == p && isCompletedStatus t.status) prev hf hpw
  have hq1 : (prev.project_no == p) = true := by simp [hprevp]
  have hq2 : ((applyTaskUpdate ⟨us, none, uo⟩ prev).project_no == p) = true := by
    simp [applyTaskUpdate, hprevp]
  have hst : (applyTaskUpdate ⟨us, none, uo⟩ prev).status = us.getD prev.status := rfl
  simp only [hq1, hq2, hst, Bool.true_and] at h
  unfold liveCompleted
  omega

theorem liveTotal_filter_ne (tasks : List Task) (taskId : Nat) (t0 : Task) (p : String)
    (hf : tasks.find? (fun t => t.id == taskId) = some t0)
    (hpw : tasks.Pairwise (fun a b => a.id ≠ b.id))
    (ht0p : t0.project_no = p) :
    liveTotal (tasks.filter (fun t => !(t.id == taskId))) p + 1 = liveTotal tasks p := by
  have h := countP_filter_ne tasks taskId (fun t => t.project_no == p) t0 hf hpw
  have hq1 : (t0.project_no == p) = true := by simp [ht0p]
  simp only [hq1, if_true] at h
  unfold liveTotal
  omega

theorem liveCompleted_filter_ne (tasks : List Task) (taskId : Nat) (t0 : Task) (p : String)
    (hf : tasks.find? (fun t => t.id == taskId) = some t0)
    (hpw : tasks.Pairwise (fun a b => a.id ≠ b.id))
    (ht0p : t0.project_no = p) :
    liveCompleted (tasks.filter (fun t => !(t.id == taskId))) p
        + (if isCompletedStatus t0.status then 1 else 0)
      = liveCompleted tasks p := by
  have h := countP_filter_ne tasks taskId
    (fun t => t.project_no == p && isCompletedStatus t.status) t0 hf hpw
  have hq1 : (t0.project_no == p) = true := by simp [ht0p]
  simp only [hq1, Bool.true_and] at h
  unfold liveCompleted
  omega

theorem filter_ne_structural (tasks : List Task) (taskId : Nat) (p : String) (nextId : Nat)
    (hall : ∀ t ∈ tasks, t.project_no = p)
    (hpw : tasks.Pairwise (fun a b => a.id ≠ b.id))
    (hlt : ∀ t ∈ tasks, t.id < nextId) :
    (∀ t ∈ tasks.filter (fun t => !(t.id == taskId)), t.project_no = p) ∧
    (tasks.filter (fun t => !(t.id == taskId))).Pairwise (fun a b => a.id ≠ b.id) ∧
    (∀ t ∈ tasks.filter (fun t => !(t.id == taskId)), t.id < nextId) := by
  refine ⟨?_, ?_, ?_⟩
  · intro t ht
    exact hall t (List.mem_of_mem_filter ht)
  · exact hpw.sublist (List.filter_sublist tasks)
  · intro t ht
    exact hlt t (List.mem_of_mem_filter ht)

theorem step_preserves (cat p : String) (st : DbState) (op : Op)
    (hop : goodOp op = true)
    (hinv : StInv p st)
    (hmatch : countersMatch st cat p) :
    StInv p (applyOp cat p st op).1 ∧ countersMatch (applyOp cat p st op).1 cat p ∧
      callsOk (applyOp cat p st op).2.1 = true := by
  obtain ⟨⟨cols, hpr⟩, hall, hpw, hlt⟩ := hinv
  obtain ⟨hm1, hm2⟩ := hmatch
  rw [hpr, colVal_single] at hm1 hm2
  have eT : ("total" ++ "_" ++ cat) = ("total_" ++ cat) := rfl
  have eC : ("completed" ++ "_" ++ cat) = ("completed_" ++ cat) := rfl
  have hone : (if (1 : Int) > 0 then (1 : Int) else -1) = 1 := by norm_num
  have hmone : (if (-1 : Int) > 0 then (1 : Int) else -1) = -1 := by norm_num
  have hTC := total_col_ne_completed_col cat
  have hnoop : StInv p st ∧ countersMatch st cat p ∧ callsOk [] = true := by
    refine ⟨⟨⟨cols, hpr⟩, hall, hpw, hlt⟩, ⟨?_, ?_⟩, rfl⟩
    · rw [hpr, colVal_single]; exact hm1
    · rw [hpr, colVal_single]; exact hm2
  cases op with
  | create title status =>
      simp only [applyOp]
      unfold taskPost
      by_cases h1 : (jsTrim title == "") = true
      · simp only [h1, if_true]
        exact hnoop
      by_cases h2 : (jsTrim p == "") = true
      · simp only [h1, h2, Bool.false_eq_true, if_false, if_true]
        exact hnoop
      simp only [h1, h2, Bool.false_eq_true, if_false]
      have hall2 : ∀ t ∈ st.tasks ++ [(⟨st.nextId, jsOrDefault status "pending", p⟩ : Task)],
          t.project_no = p := by
        intro t ht
        rcases List.mem_append.mp ht with h | h
        · exact hall t h
        · rw [List.mem_singleton.mp h]
      have hpw2 : (st.tasks ++ [(⟨st.nextId, jsOrDefault status "pending", p⟩ : Task)]).Pairwise
          (fun a b => a.id ≠ b.id) := by
        rw [List.pairwise_append]
        refine ⟨hpw, List.pairwise_singleton _ _, ?_⟩
        intro a ha b hb
        rw [List.mem_singleton.mp hb]
        exact Nat.ne_of_lt (hlt a ha)
      have hlt2 : ∀ t ∈ st.tasks ++ [(⟨st.nextId, jsOrDefault status "pending", p⟩ : Task)],
          t.id < st.nextId + 1 := by
        intro t ht
        rcases List.mem_append.mp ht with h | h
        · exact Nat.lt_succ_of_lt (hlt t h)
        · rw [List.mem_singleton.mp h]
          exact Nat.lt_succ_self _
      rw [hpr, updateProjectCounts_single]
      by_cases hc : (jsToLower (jsOrDefault status "pending") == "completed") = true
      · simp only [hc, if_true]
        rw [updateProjectCounts_single]
        refine ⟨⟨⟨_, rfl⟩, hall2, hpw2, hlt2⟩, ⟨?_, ?_⟩, rfl⟩
        · rw [colVal_single]
          simp only [eT, eC, hone]
          rw [updateCol_other _ _ _ _ hTC, updateCol_same, liveTotal_append_new]
          push_cast
          omega
        · rw [colVal_single]
          simp only [eT, eC, hone]
          rw [updateCol_same, updateCol_other _ _ _ _ (Ne.symm hTC), liveCompleted_append_new]
          have hcc : isCompletedStatus (jsOrDefault status "pending") = true := hc
          simp only [hcc, if_true]
          push_cast
          omega
      · simp only [hc, Bool.false_eq_true, if_false]
        refine ⟨⟨⟨_, rfl⟩, hall2, hpw2, hlt2⟩, ⟨?_, ?_⟩, rfl⟩
        · rw [colVal_single]
          simp only [eT, hone]
          rw [updateCol_same, liveTotal_append_new]
          push_cast
          omega
        · rw [colVal_single]
          simp only [eT, hone]
          rw [updateCol_other _ _ _ _ (Ne.symm hTC), liveCompleted_append_new]
          have hcc : isCompletedStatus (jsOrDefault status "pending") = false := by
            simpa [isCompletedStatus] using hc
          simp only [hcc, Bool.false_eq_true, if_false]
          push_cast
          omega
  | update taskId status other =>
      have hgood : status ≠ some "" := by
        cases status with
        | none => simp
        | some s =>
            simp only [goodOp, bne_iff_ne] at hop
            intro h
            exact hop (Option.some_inj.mp h)
      simp only [applyOp]
      unfold taskPatch
      by_cases hb : (status.isNone && (none : Option String).isNone && !other) = true
      · simp only [hb, if_true]
        exact hnoop
      simp only [hb, Bool.false_eq_true, if_false]
      cases hf : st.tasks.find? (fun t => t.id == taskId) with
      | none =>
          simp only [hf]
          exact hnoop
      | some prev =>
          simp only [hf]
          have hmem := List.mem_of_find?_eq_some hf
          have hprevp : prev.project_no = p := hall prev hmem
          obtain ⟨hallm, hpwm, hltm⟩ :=
            patch_map_structural st.tasks taskId status other p st.nextId hall hpw hlt
          have hlive1 := liveTotal_map_update st.tasks taskId status other prev p hf hpw hprevp
          have hlive2 := liveCompleted_map_update st.tasks taskId status other prev p hf hpw hprevp
          cases status with
          | none =>
              simp only [Option.getD] at hlive2
              simp only [Bool.and_not_self, Bool.not_and_self, Bool.false_eq_true, if_false]
              refine ⟨⟨⟨cols, hpr⟩, hallm, hpwm, hltm⟩, ⟨?_, ?_⟩, rfl⟩
              · rw [hpr, colVal_single, hlive1]
                exact hm1
              · rw [hpr, colVal_single]
                rw [hm2]
                dsimp only
                omega
          | some s =>
              have hse : (s == "") = false := by
                have hs2 : s ≠ "" := by
                  intro h
                  exact hgood (by rw [h])
                simp [hs2]
              simp only [hse, Bool.false_eq_true, if_false]
              simp only [Option.getD] at hlive2
              by_cases hn : (jsToLower s == "completed") = true <;>
                by_cases ho : (jsToLower prev.status == "completed") = true
              · -- completed -> completed: no counter change
                have hcn : isCompletedStatus s = true := hn
                have hco : isCompletedStatus prev.status = true := ho
                simp only [hn, ho, Bool.and_not_self, Bool.not_and_self, Bool.not_true,
                  Bool.and_false, Bool.false_and, Bool.false_eq_true, if_false]
                simp only [hcn, hco, if_true] at hlive2
                refine ⟨⟨⟨cols, hpr⟩, hallm, hpwm, hltm⟩, ⟨?_, ?_⟩, rfl⟩
                · rw [hpr, colVal_single, hlive1]
                  exact hm1
                · rw [hpr, colVal_single, hm2]
                  dsimp only
                  omega
              · -- transition into completed: +1
                have hcn : isCompletedStatus s = true := hn
                have hco : isCompletedStatus prev.status = false := by
                  simpa [isCompletedStatus] using ho
                simp only [hn, ho, Bool.not_false, Bool.and_true, Bool.true_and, Bool.not_true,
                  Bool.and_false, Bool.false_eq_true, if_true, if_false]
                simp only [hcn, hco, if_true, Bool.false_eq_true, if_false] at hlive2
                rw [hprevp, hpr, updateProjectCounts_single]
                refine ⟨⟨⟨_, rfl⟩, hallm, hpwm, hltm⟩, ⟨?_, ?_⟩, rfl⟩
                · rw [colVal_single]
                  simp only [eC, hone]
                  rw [updateCol_other _ _ _ _ hTC, hlive1]
                  exact hm1
                · rw [colVal_single]
                  simp only [eC, hone]
                  rw [updateCol_same]
                  omega
              · -- transition out of completed: -1
                have hcn : isCompletedStatus s = false := by
                  simpa [isCompletedStatus] using hn
                have hco : isCompletedStatus prev.status = true := ho
                simp only [hn, ho, Bool.not_false, Bool.not_true, Bool.and_false, Bool.false_and,
                  Bool.and_true, Bool.true_and, Bool.false_eq_true, if_true, if_false]
                simp only [hcn, hco, if_true, Bool.false_eq_true, if_false] at hlive2
                rw [hprevp, hpr, updateProjectCounts_single]
                refine ⟨⟨⟨_, rfl⟩, hallm, hpwm, hltm⟩, ⟨?_, ?_⟩, rfl⟩
                · rw [colVal_single]
                  simp only [eC, hmone]
                  rw [updateCol_other _ _ _ _ hTC, hlive1]
                  exact hm1
                · rw [colVal_single]
                  simp only [eC, hmone]
                  rw [updateCol_same]
                  omega
              · -- non-completed -> non-completed: no change
                have hcn : isCompletedStatus s = false := by
                  simpa [isCompletedStatus] using hn
                have hco : isCompletedStatus prev.status = false := by
                  simpa [isCompletedStatus] using ho
                simp only [hn, ho, Bool.false_and, Bool.and_false, Bool.not_false,
                  Bool.false_eq_true, if_false]
                simp only [hcn, hco, Bool.false_eq_true, if_false] at hlive2
                refine ⟨⟨⟨cols, hpr⟩, hallm, hpwm, hltm⟩, ⟨?_, ?_⟩, rfl⟩
                · rw [hpr, colVal_single, hlive1]
                  exact hm1
                · rw [hpr, colVal_single, hm2]
                  dsimp only
                  omega
  | delete taskId =>
      simp only [applyOp]
      unfold taskDelete
      cases hf : st.tasks.find? (fun t => t.id == taskId) with
      | none =>
          simp only [hf]
          exact hnoop
      | some t0 =>
          simp only [hf]
          have hmem := List.mem_of_find?_eq_some hf
          have ht0p : t0.project_no = p := hall t0 hmem
          obtain ⟨hallf, hpwf, hltf⟩ := filter_ne_structural st.tasks taskId p st.nextId hall hpw hlt
          have hlive1 := liveTotal_filter_ne st.tasks taskId t0 p hf hpw ht0p
          have hlive2 := liveCompleted_filter_ne st.tasks taskId t0 p hf hpw ht0p
          rw [ht0p, hpr, updateProjectCounts_single]
          by_cases hc : (jsToLower t0.status == "completed") = true
          · have hcc : isCompletedStatus t0.status = true := hc
            simp only [hc, if_true]
            rw [updateProjectCounts_single]
            simp only [hcc, if_true] at hlive2
            refine ⟨⟨⟨_, rfl⟩, hallf, hpwf, hltf⟩, ⟨?_, ?_⟩, rfl⟩
            · rw [colVal_single]
              simp only [eT, eC, hmone]
              rw [updateCol_other _ _ _ _ hTC, updateCol_same]
              omega
            · rw [colVal_single]
              simp only [eT, eC, hmone]
              rw [updateCol_same, updateCol_other _ _ _ _ (Ne.symm hTC)]
              omega
          · have hcc : isCompletedStatus t0.status = false := by
              simpa [isCompletedStatus] using hc
            simp only [hc, Bool.false_eq_true, if_false]
            simp only [hcc, Bool.false_eq_true, if_false] at hlive2
            refine ⟨⟨⟨_, rfl⟩, hallf, hpwf, hltf⟩, ⟨?_, ?_⟩, rfl⟩
            · rw [colVal_single]
              simp only [eT, hmone]
              rw [updateCol_same]
              omega
            · rw [colVal_single]
              simp only [eT, hmone]
              rw [updateCol_other _ _ _ _ (Ne.symm hTC)]
              omega

theorem runOps_inv (cat p : String) (ops : List Op) :
    ∀ acc : DbState × List CounterLog,
      (∀ op ∈ ops, goodOp op = true) →
      StInv p acc.1 → countersMatch acc.1 cat p → callsOk acc.2 = true →
      StInv p (ops.foldl (fun acc op =>
          let r := applyOp cat p acc.1 op
          (r.1, acc.2 ++ r.2.1)) acc).1 ∧
      countersMatch (ops.foldl (fun acc op =>
          let r := applyOp cat p acc.1 op
          (r.1, acc.2 ++ r.2.1)) acc).1 cat p ∧
      callsOk (ops.foldl (fun acc op =>
          let r := applyOp cat p acc.1 op
          (r.1, acc.2 ++ r.2.1)) acc).2 = true := by
  induction ops with
  | nil =>
      intro acc _ h1 h2 h3
      exact ⟨h1, h2, h3⟩
  | cons op ops ih =>
      intro acc hops h1 h2 h3
      rw [List.foldl_cons]
      have hop : goodOp op = true := hops op (List.mem_cons_self op ops)
      have hstep := step_preserves cat p acc.1 op hop h1 h2
      apply ih
      · intro o ho
        exact hops o (List.mem_cons_of_mem _ ho)
      · exact hstep.1
      · exact hstep.2.1
      · have hcalls := hstep.2.2
        simp only [callsOk] at h3 hcalls ⊢
        rw [List.all_append, h3, hcalls]
        rfl

/-! ## Claim theorems -/

/-- C9.  Delta coercion at the Counter Updater interface: the change applied
to the addressed counter column is exactly +1 when the passed delta is
positive and exactly -1 otherwise; in particular delta 0 decrements the
column by 1 and delta 5 increments it by only 1. -/
theorem safeDelta_coercion :
    ∀ (cols : String → Int) (pno taskType countType : String) (δ : Int),
      colVal (updateProjectCounts false [⟨pno, cols⟩] pno taskType countType δ).1
          pno (countType ++ "_" ++ taskType)
        = cols (countType ++ "_" ++ taskType) + (if δ > 0 then 1 else -1)
      ∧ colVal (updateProjectCounts false [⟨"P1", fun _ => 10⟩] "P1" "panel" "total" 0).1
          "P1" "total_panel" = 9
      ∧ colVal (updateProjectCounts false [⟨"P1", fun _ => 10⟩] "P1" "panel" "total" 5).1
          "P1" "total_panel" = 11 := by
  refine fun cols pno tt ct δ => ⟨?_, by decide, by decide⟩
  rw [updateProjectCounts_single, colVal_single, updateCol_same]

/-- C5.  Counter Updater error handling: a driver error is caught and leaves
the projects table unchanged (same observable effect as zero affected rows,
logged); a missing project row is a logged no-op; and the enclosing task
handlers produce the same task table and the same HTTP status whether or not
the counter call fails. -/
theorem counter_updater_nonfatal :
    ∀ (dbError : Bool) (projects : List Project) (pno taskType countType cat : String)
      (δ : Int) (st : DbState) (taskId : Nat) (b : CreateBody) (u : UpdateBody),
      (dbError = true →
        updateProjectCounts dbError projects pno taskType countType δ
          = (projects, CounterLog.dbError (countType ++ "_" ++ taskType) pno)) ∧
      (dbError = false → affectedRows projects pno = 0 →
        updateProjectCounts dbError projects pno taskType countType δ
          = (projects, CounterLog.warnNoMatch (countType ++ "_" ++ taskType) pno)) ∧
      ((taskPost cat dbError st b).1.tasks = (taskPost cat false st b).1.tasks ∧
       (taskPost cat dbError st b).2.2 = (taskPost cat false st b).2.2) ∧
      ((taskPatch cat dbError st taskId u).1.tasks = (taskPatch cat false st taskId u).1.tasks ∧
       (taskPatch cat dbError st taskId u).2.2 = (taskPatch cat false st taskId u).2.2) ∧
      ((taskDelete cat dbError st taskId).1.tasks = (taskDelete cat false st taskId).1.tasks ∧
       (taskDelete cat dbError st taskId).2.2 = (taskDelete cat false st taskId).2.2) := by
  intro dbError projects pno tt ct cat δ st taskId b u
  refine ⟨?_, ?_, ?_, ?_, ?_⟩
  · rintro rfl
    exact updateProjectCounts_true projects pno tt ct δ
  · rintro rfl h0
    rw [updateProjectCounts_false, map_applyCounterUpdate_of_no_match projects _ _ _ h0, if_pos h0]
  · unfold taskPost
    by_cases h1 : (jsTrim b.title == "") = true <;>
      by_cases h2 : (jsTrim b.project_no == "") = true <;>
        simp [h1, h2]
  · unfold taskPatch
    by_cases h1 : (u.status.isNone && u.project_no.isNone && !u.other) = true
    · simp [h1]
    · cases hf : st.tasks.find? (fun t => t.id == taskId) <;> simp [h1, hf]
  · unfold taskDelete
    cases hf : st.tasks.find? (fun t => t.id == taskId) <;> simp [hf]

/-- Witness for C5: a counter call against an empty projects table is the
logged no-op. -/
theorem counter_updater_nonfatal_witness :
    updateProjectCounts false [] "P1" "panel" "total" 1
      = ([], CounterLog.warnNoMatch "total_panel" "P1") :=
  (counter_updater_nonfatal false [] "P1" "panel" "total" "panel" 1 ⟨[], [], 1⟩ 1
      ⟨"t", none, "P1"⟩ ⟨none, none, false⟩).2.1 rfl rfl

/-- C10.  The counter step of DELETE /api/projects/file/:id looks the
projects column up in a map whose `system`, `transportation` and `quotation`
entries are task-table names (a copy of `taskTableMap`), unlike the parallel
map of the upload handler: for a file of category `system` the claimed
clamped decrement of `total_system` does not happen.  For the categories
with a correct entry the handler decrements the total column clamped at
zero and never touches the completed column, while the task DELETE path
decrements without clamping and also decrements the completed counter. -/
theorem fileDelete_system_column_slip :
    fileDeleteCategoryToColumn.lookup "system" = some "system_tasks" ∧
    uploadCategoryToColumn.lookup "system" = some "total_system" ∧
    colVal (fileDeleteCounterStep "system" [⟨"P1", fun _ => 5⟩] "P1") "P1" "total_system" = 5 ∧
    colVal (fileDeleteCounterStep "panel" [⟨"P1", fun _ => 5⟩] "P1") "P1" "total_panel" = 4 ∧
    colVal (fileDeleteCounterStep "panel" [⟨"P1", fun _ => 0⟩] "P1") "P1" "total_panel" = 0 ∧
    colVal (fileDeleteCounterStep "panel" [⟨"P1", fun _ => 5⟩] "P1") "P1" "completed_panel" = 5 ∧
    colVal ((taskDelete "panel" false ⟨[⟨"P1", fun _ => 0⟩], [⟨1, "Completed", "P1"⟩], 2⟩ 1).1.projects)
        "P1" "total_panel" = -1 ∧
    colVal ((taskDelete "panel" false ⟨[⟨"P1", fun _ => 0⟩], [⟨1, "Completed", "P1"⟩], 2⟩ 1).1.projects)
        "P1" "completed_panel" = -1 := by
  decide

/-- C7.  The aggregator percentage is `round(100 * completed / total)` with
half-up integer rounding when `total > 0` and `0` otherwise; in particular
1 of 3 gives 33 and 2 of 3 gives 67. -/
theorem percentage_rounding_half_up :
    ∀ completed total : Nat,
      percentageOf completed total = specPercentage completed total
      ∧ percentageOf 1 3 = 33 ∧ percentageOf 2 3 = 67 := by
  have h13 : percentageOf 1 3 = 33 := by
    unfold percentageOf jsRound
    rw [if_pos (by norm_num), show ((1 : Nat) : ℚ) / ((3 : Nat) : ℚ) * 100 + 1 / 2 = 203 / 6 by norm_num]
    rw [Int.floor_eq_iff]; norm_num
  have h23 : percentageOf 2 3 = 67 := by
    unfold percentageOf jsRound
    rw [if_pos (by norm_num), show ((2 : Nat) : ℚ) / ((3 : Nat) : ℚ) * 100 + 1 / 2 = 403 / 6 by norm_num]
    rw [Int.floor_eq_iff]; norm_num
  refine fun c t => ⟨?_, h13, h23⟩
  unfold percentageOf specPercentage jsRound
  by_cases h : 0 < t
  · rw [if_pos h, if_pos h, div_mul_eq_mul_div, mul_comm]
  · rw [if_neg h, if_neg h]

/-- C6.  The aggregator on a project with exactly three panel tasks (two
`Completed`, one `pending`) and empty tables elsewhere returns the panel
entry `{completed: 2, total: 3, percentage: 67}` and all-zero entries for
every other category. -/
theorem calculateCompletion_concrete_panel :
    calculateCompletionPercentage (fun _ => false) c6Tables "P1" =
      Except.ok ⟨⟨2, 3, 67⟩, ⟨0, 0, 0⟩, ⟨0, 0, 0⟩, ⟨0, 0, 0⟩, ⟨0, 0, 0⟩, ⟨0, 0, 0⟩⟩ := by
  have h23 : percentageOf 2 3 = 67 := by
    unfold percentageOf jsRound
    rw [if_pos (by norm_num), show ((2 : Nat) : ℚ) / ((3 : Nat) : ℚ) * 100 + 1 / 2 = 403 / 6 by norm_num]
    rw [Int.floor_eq_iff]; norm_num
  have key : calculateCompletionPercentage (fun _ => false) c6Tables "P1" =
      Except.ok ⟨calcCat c6PanelTable "P1", calcCat [] "P1", calcCat [] "P1",
                 calcCat [] "P1", calcCat [] "P1", calcCat [] "P1"⟩ := rfl
  have hpanel : calcCat c6PanelTable "P1" = ⟨2, 3, 67⟩ := by
    have h1 : c6PanelTable.countP (fun t => t.project_no == "P1") = 3 := by decide
    have h2 : c6PanelTable.countP
        (fun t => t.project_no == "P1" && sqlCompletedMatch t.status) = 2 := by decide
    simp [calcCat, h1, h2, h23]
  have hz : calcCat [] "P1" = ⟨0, 0, 0⟩ := by
    simp [calcCat, percentageOf]
  rw [key, hpanel, hz]

/-- C3 (amended).  For the categories whose POST handler calls the Counter
Updater (panel, cutting, accessories, strip_curtain, system — the common
handler `taskPost`): a POST that passes validation inserts the row with
status `status || "pending"`, responds 201, increments `total_<cat>` by 1,
and increments `completed_<cat>` by 1 exactly when that effective status is
completed case-insensitively.  The door-tasks POST is the exception the
counterexample exhibits. -/
theorem task_post_increments_counters
    (cat : String) (cols : String → Int) (tasks : List Task) (nextId : Nat) (b : CreateBody)
    (htitle : (jsTrim b.title == "") = false)
    (hpno : (jsTrim b.project_no == "") = false) :
    (taskPost cat false ⟨[⟨b.project_no, cols⟩], tasks, nextId⟩ b).2.2 = 201 ∧
    (taskPost cat false ⟨[⟨b.project_no, cols⟩], tasks, nextId⟩ b).1.tasks
      = tasks ++ [⟨nextId, jsOrDefault b.status "pending", b.project_no⟩] ∧
    colVal (taskPost cat false ⟨[⟨b.project_no, cols⟩], tasks, nextId⟩ b).1.projects
        b.project_no ("total_" ++ cat)
      = cols ("total_" ++ cat) + 1 ∧
    colVal (taskPost cat false ⟨[⟨b.project_no, cols⟩], tasks, nextId⟩ b).1.projects
        b.project_no ("completed_" ++ cat)
      = cols ("completed_" ++ cat)
        + (if isCompletedStatus (jsOrDefault b.status "pending") then 1 else 0) := by
  have ecolT : ("total" ++ "_" ++ cat) = ("total_" ++ cat) := rfl
  have ecolC : ("completed" ++ "_" ++ cat) = ("completed_" ++ cat) := rfl
  have hone : (if (1 : Int) > 0 then (1 : Int) else -1) = 1 := by norm_num
  unfold taskPost
  simp only [htitle, Bool.false_eq_true, if_false]
  simp only [hpno, Bool.false_eq_true, if_false]
  rw [updateProjectCounts_single]
  by_cases hc : isCompletedStatus (jsOrDefault b.status "pending") = true
  · have hc2 : (jsToLower (jsOrDefault b.status "pending") == "completed") = true := hc
    simp only [hc2, if_true]
    rw [updateProjectCounts_single]
    simp only [ecolT, ecolC, hone]
    refine ⟨by trivial, by trivial, ?_, ?_⟩
    · rw [colVal_single,
        updateCol_other _ _ _ _ (total_col_ne_completed_col cat),
        updateCol_same]
    · rw [colVal_single, updateCol_same,
        updateCol_other _ _ _ _ (Ne.symm (total_col_ne_completed_col cat)), if_pos hc]
  · have hc2 : (jsToLower (jsOrDefault b.status "pending") == "completed") = false := by
      simpa [isCompletedStatus] using hc
    simp only [hc2, Bool.false_eq_true, if_false]
    simp only [ecolT, hone]
    refine ⟨by trivial, by trivial, ?_, ?_⟩
    · rw [colVal_single, updateCol_same]
    · rw [colVal_single,
        updateCol_other _ _ _ _ (Ne.symm (total_col_ne_completed_col cat)), if_neg hc]
      norm_num

/-- Witness for C3: panel POST of a `Completed` task on a fresh project. -/
theorem task_post_increments_counters_witness :
    (taskPost "panel" false ⟨[⟨"P1", fun _ => 0⟩], [], 1⟩ ⟨"t", some "Completed", "P1"⟩).2.2 = 201 ∧
    (taskPost "panel" false ⟨[⟨"P1", fun _ => 0⟩], [], 1⟩ ⟨"t", some "Completed", "P1"⟩).1.tasks
      = [] ++ [⟨1, jsOrDefault (some "Completed") "pending", "P1"⟩] ∧
    colVal (taskPost "panel" false ⟨[⟨"P1", fun _ => 0⟩], [], 1⟩ ⟨"t", some "Completed", "P1"⟩).1.projects
        "P1" ("total_" ++ "panel") = (fun _ => (0 : Int)) ("total_" ++ "panel") + 1 ∧
    colVal (taskPost "panel" false ⟨[⟨"P1", fun _ => 0⟩], [], 1⟩ ⟨"t", some "Completed", "P1"⟩).1.projects
        "P1" ("completed_" ++ "panel")
      = (fun _ => (0 : Int)) ("completed_" ++ "panel")
        + (if isCompletedStatus (jsOrDefault (some "Completed") "pending") then 1 else 0) :=
  task_post_increments_counters "panel" (fun _ => 0) [] 1 ⟨"t", some "Completed", "P1"⟩
    (by decide) (by decide)

/-- Counterexample to C3 as stated: the door-tasks POST succeeds (201) and
inserts a task created as `Completed`, yet both door counters of its project
stay 0 — the handler never calls the Counter Updater. -/
theorem door_post_leaves_counters_unchanged :
    (doorPost [⟨"P1", fun _ => 0⟩] [] 1 ⟨"t", some "Completed", "P1"⟩).2.2.2 = 201 ∧
    (doorPost [⟨"P1", fun _ => 0⟩] [] 1 ⟨"t", some "Completed", "P1"⟩).2.1
      = [⟨1, some "Completed", "P1"⟩] ∧
    colVal (doorPost [⟨"P1", fun _ => 0⟩] [] 1 ⟨"t", some "Completed", "P1"⟩).1
        "P1" "total_door" = 0 ∧
    colVal (doorPost [⟨"P1", fun _ => 0⟩] [] 1 ⟨"t", some "Completed", "P1"⟩).1
        "P1" "completed_door" = 0 := by
  decide

/-- C4 (amended).  A PATCH whose body carries no `project_no` and whose
`status` field, when present, is truthy (nonempty): `completed_<cat>` moves
by +1 exactly on a transition into completed, by -1 exactly on a transition
out of completed, is unchanged otherwise, and `total_<cat>` never changes;
the comparison is case-insensitive against "completed" and an omitted status
uses the previous status.  The amendment excludes a present-but-empty status
string, which the counterexample shows writes a non-completed status without
the claimed decrement. -/
theorem same_project_patch_counter_effect
    (cat : String) (cols : String → Int) (tasks : List Task) (nextId taskId : Nat)
    (us : Option String) (uo : Bool) (t0 : Task)
    (hfind : tasks.find? (fun t => t.id == taskId) = some t0)
    (hs : us ≠ some "") :
    colVal (taskPatch cat false ⟨[⟨t0.project_no, cols⟩], tasks, nextId⟩ taskId
        ⟨us, none, uo⟩).1.projects t0.project_no ("total_" ++ cat)
      = cols ("total_" ++ cat) ∧
    colVal (taskPatch cat false ⟨[⟨t0.project_no, cols⟩], tasks, nextId⟩ taskId
        ⟨us, none, uo⟩).1.projects t0.project_no ("completed_" ++ cat)
      = cols ("completed_" ++ cat)
        + (if isCompletedStatus (us.getD t0.status) && !(isCompletedStatus t0.status) then 1
           else if !(isCompletedStatus (us.getD t0.status)) && isCompletedStatus t0.status then -1
           else 0) := by
  have ecolC : ("completed" ++ "_" ++ cat) = ("completed_" ++ cat) := rfl
  have hone : (if (1 : Int) > 0 then (1 : Int) else -1) = 1 := by norm_num
  have hmone : (if (-1 : Int) > 0 then (1 : Int) else -1) = -1 := by norm_num
  unfold taskPatch
  cases us with
  | none =>
      have hz : (if isCompletedStatus t0.status && !(isCompletedStatus t0.status) then (1 : Int)
          else if !(isCompletedStatus t0.status) && isCompletedStatus t0.status then -1
          else 0) = 0 := by
        simp
      by_cases hb : ((none : Option String).isNone && (none : Option String).isNone && !uo) = true
      · simp only [hb, if_true]
        exact ⟨colVal_single _ _ _, by rw [colVal_single, Option.getD, hz]; norm_num⟩
      · simp only [hb, Bool.false_eq_true, if_false, hfind]
        simp only [Bool.and_not_self, Bool.not_and_self, Bool.false_eq_true, if_false]
        exact ⟨colVal_single _ _ _, by rw [colVal_single, Option.getD, hz]; norm_num⟩
  | some s =>
      have hs2 : s ≠ "" := fun h => hs (by rw [h])
      have hse : (s == "") = false := by simp [hs2]
      simp only [Option.isNone, Bool.false_and, Bool.false_eq_true, if_false, hfind, hse,
        Option.getD]
      by_cases hn : (jsToLower s == "completed") = true <;>
        by_cases ho : (jsToLower t0.status == "completed") = true
      · simp only [isCompletedStatus, hn, ho, Bool.and_not_self, Bool.not_and_self,
          Bool.not_true, Bool.and_false, Bool.false_and, Bool.false_eq_true, if_false]
        exact ⟨colVal_single _ _ _, by rw [colVal_single]; norm_num⟩
      · simp only [isCompletedStatus, hn, ho, Bool.not_eq_true] at *
        simp only [hn, ho, Bool.not_false, Bool.and_true, Bool.true_and, Bool.not_true,
          Bool.and_false, Bool.false_eq_true, if_true, if_false, isCompletedStatus]
        rw [updateProjectCounts_single]
        simp only [ecolC, hone]
        refine ⟨?_, ?_⟩
        · rw [colVal_single, updateCol_other _ _ _ _ (total_col_ne_completed_col cat)]
        · rw [colVal_single, updateCol_same]
      · simp only [isCompletedStatus, hn, ho, Bool.not_eq_true] at *
        simp only [hn, ho, Bool.not_false, Bool.not_true, Bool.and_false, Bool.false_and,
          Bool.and_true, Bool.true_and, Bool.false_eq_true, if_true, if_false, isCompletedStatus]
        rw [updateProjectCounts_single]
        simp only [ecolC, hmone]
        refine ⟨?_, ?_⟩
        · rw [colVal_single, updateCol_other _ _ _ _ (total_col_ne_completed_col cat)]
        · rw [colVal_single, updateCol_same]
      · simp only [isCompletedStatus, hn, ho, Bool.not_eq_true] at *
        simp only [hn, ho, Bool.false_and, Bool.and_false, Bool.not_false, Bool.false_eq_true,
          if_false, isCompletedStatus]
        exact ⟨colVal_single _ _ _, by rw [colVal_single]; norm_num⟩

/-- Witness for C4: a panel PATCH moving a pending task to `Completed`
increments the completed counter and leaves the total alone. -/
theorem same_project_patch_counter_effect_witness :
    colVal (taskPatch "panel" false ⟨[⟨"P1", fun _ => 1⟩], [⟨1, "pending", "P1"⟩], 2⟩ 1
        ⟨some "Completed", none, false⟩).1.projects "P1" ("total_" ++ "panel")
      = (fun _ => (1 : Int)) ("total_" ++ "panel") ∧
    colVal (taskPatch "panel" false ⟨[⟨"P1", fun _ => 1⟩], [⟨1, "pending", "P1"⟩], 2⟩ 1
        ⟨some "Completed", none, false⟩).1.projects "P1" ("completed_" ++ "panel")
      = (fun _ => (1 : Int)) ("completed_" ++ "panel")
        + (if isCompletedStatus ((some "Completed").getD "pending")
              && !(isCompletedStatus "pending") then 1
           else if !(isCompletedStatus ((some "Completed").getD "pending"))
              && isCompletedStatus "pending" then -1
           else 0) :=
  same_project_patch_counter_effect "panel" (fun _ => 1) [⟨1, "pending", "P1"⟩] 2 1
    (some "Completed") false ⟨1, "pending", "P1"⟩ rfl (by decide)

/-- Counterexample to C4 as stated: PATCH body `{status: ""}` on a completed
panel task answers 200 and writes the non-completed empty status to the row,
yet `completed_panel` keeps its value 1 — the truthiness test on
`updates.status` treats the present empty string like an omitted field. -/
theorem patch_empty_status_skips_decrement :
    (taskPatch "panel" false
        ⟨[⟨"P1", fun c => if c == "total_panel" then 1 else if c == "completed_panel" then 1 else 0⟩],
         [⟨1, "completed", "P1"⟩], 2⟩ 1 ⟨some "", none, false⟩).2.2 = 200 ∧
    (taskPatch "panel" false
        ⟨[⟨"P1", fun c => if c == "total_panel" then 1 else if c == "completed_panel" then 1 else 0⟩],
         [⟨1, "completed", "P1"⟩], 2⟩ 1 ⟨some "", none, false⟩).1.tasks
      = [⟨1, "", "P1"⟩] ∧
    isCompletedStatus "" = false ∧
    colVal (taskPatch "panel" false
        ⟨[⟨"P1", fun c => if c == "total_panel" then 1 else if c == "completed_panel" then 1 else 0⟩],
         [⟨1, "completed", "P1"⟩], 2⟩ 1 ⟨some "", none, false⟩).1.projects
        "P1" "completed_panel" = 1 := by
  decide

/-- C2 (amended).  Project reassignment moves counters only on the
cutting-tasks router.  Part one: the PATCH handler shared by the panel,
accessories, strip-curtain and system routers never changes any
`total_<cat>` column of any project — in particular a reassignment there
adjusts no totals at all.  Part two: a cutting-tasks PATCH that moves a task
from project A to a different project B, where the supplied `project_no` is
truthy (nonempty — a present-but-empty one is written to the row but treated
as no transfer) and the status field, when present, is truthy, decrements
A's total by 1 (and A's completed by 1 when the old status was completed)
and increments B's total by 1 (and B's completed by 1 when the EFFECTIVE new
status — the supplied one when truthy, else the old one — is completed),
leaving the sum of the two totals unchanged.  Each restriction is exhibited
by the counterexample. -/
theorem cutting_transfer_counter_effect :
    (∀ (cat : String) (dbErr : Bool) (st : DbState) (taskId : Nat) (u : UpdateBody)
        (pno : String),
        colVal (taskPatch cat dbErr st taskId u).1.projects pno ("total_" ++ cat)
          = colVal st.projects pno ("total_" ++ cat)) ∧
    (∀ (colsA colsB : String → Int) (tasks : List Task) (nextId taskId : Nat)
        (us : Option String) (uo : Bool) (B : String) (t0 : Task),
        tasks.find? (fun t => t.id == taskId) = some t0 →
        us ≠ some "" →
        B ≠ "" →
        t0.project_no ≠ B →
        colVal (cuttingPatch false ⟨[⟨t0.project_no, colsA⟩, ⟨B, colsB⟩], tasks, nextId⟩ taskId
            ⟨us, some B, uo⟩).1.projects t0.project_no "total_cutting"
          = colsA "total_cutting" - 1 ∧
        colVal (cuttingPatch false ⟨[⟨t0.project_no, colsA⟩, ⟨B, colsB⟩], tasks, nextId⟩ taskId
            ⟨us, some B, uo⟩).1.projects t0.project_no "completed_cutting"
          = colsA "completed_cutting" - (if isCompletedStatus t0.status then 1 else 0) ∧
        colVal (cuttingPatch false ⟨[⟨t0.project_no, colsA⟩, ⟨B, colsB⟩], tasks, nextId⟩ taskId
            ⟨us, some B, uo⟩).1.projects B "total_cutting"
          = colsB "total_cutting" + 1 ∧
        colVal (cuttingPatch false ⟨[⟨t0.project_no, colsA⟩, ⟨B, colsB⟩], tasks, nextId⟩ taskId
            ⟨us, some B, uo⟩).1.projects B "completed_cutting"
          = colsB "completed_cutting" + (if isCompletedStatus (us.getD t0.status) then 1 else 0) ∧
        colVal (cuttingPatch false ⟨[⟨t0.project_no, colsA⟩, ⟨B, colsB⟩], tasks, nextId⟩ taskId
            ⟨us, some B, uo⟩).1.projects t0.project_no "total_cutting"
          + colVal (cuttingPatch false ⟨[⟨t0.project_no, colsA⟩, ⟨B, colsB⟩], tasks, nextId⟩ taskId
            ⟨us, some B, uo⟩).1.projects B "total_cutting"
          = colsA "total_cutting" + colsB "total_cutting") := by
  constructor
  · intro cat dbErr st taskId u pno
    have hTC : ("total_" ++ cat) ≠ ("completed" ++ "_" ++ cat) :=
      total_col_ne_completed_col cat
    unfold taskPatch
    by_cases hb : (u.status.isNone && u.project_no.isNone && !u.other) = true
    · simp only [hb, if_true]
    · simp only [hb, Bool.false_eq_true, if_false]
      cases hf : st.tasks.find? (fun t => t.id == taskId) with
      | none => simp only [hf]
      | some prev =>
          simp only [hf]
          split
          · cases dbErr with
            | true => rw [updateProjectCounts_true]
            | false =>
                rw [updateProjectCounts_false]
                exact colVal_map_applyCounterUpdate_ne _ _ _ _ _ _ hTC
          · split
            · cases dbErr with
              | true => rw [updateProjectCounts_true]
              | false =>
                  rw [updateProjectCounts_false]
                  exact colVal_map_applyCounterUpdate_ne _ _ _ _ _ _ hTC
            · rfl
  intro colsA colsB tasks nextId taskId us uo B t0 hfind hs hB hAB
  have hBe : (B == "") = false := by simp [hB]
  have hABe : (t0.project_no == B) = false := by simp [hAB]
  have eT : ("total" ++ "_" ++ "cutting" : String) = "total_cutting" := rfl
  have eC : ("completed" ++ "_" ++ "cutting" : String) = "completed_cutting" := rfl
  have hone : (if (1 : Int) > 0 then (1 : Int) else -1) = 1 := by norm_num
  have hmone : (if (-1 : Int) > 0 then (1 : Int) else -1) = -1 := by norm_num
  have hTC : ("total_cutting" : String) ≠ "completed_cutting" := by decide
  unfold cuttingPatch
  simp only [Option.isNone_some, Bool.and_false, Bool.false_and, Bool.false_eq_true,
    if_false, hfind, hBe, hABe, Bool.not_false, if_true]
  cases us with
  | none =>
      by_cases ho : (jsToLower t0.status == "completed") = true
      · have hco : isCompletedStatus t0.status = true := ho
        simp only [ho, if_true, Option.getD, hco]
        rw [updateProjectCounts_pair_first _ _ _ _ _ _ _ hAB,
          updateProjectCounts_pair_first _ _ _ _ _ _ _ hAB,
          updateProjectCounts_pair_second _ _ _ _ _ _ _ hAB,
          updateProjectCounts_pair_second _ _ _ _ _ _ _ hAB]
        simp only [eT, eC, hone, hmone]
        simp only [colVal_pair_first, colVal_pair_second _ _ _ _ _ hAB]
        refine ⟨?_, ?_, ?_, ?_, ?_⟩
        all_goals try simp [updateCol]
        all_goals try ring
      · have hco : isCompletedStatus t0.status = false := by
          simpa [isCompletedStatus] using ho
        simp only [ho, Bool.false_eq_true, if_false, Option.getD, hco]
        rw [updateProjectCounts_pair_first _ _ _ _ _ _ _ hAB,
          updateProjectCounts_pair_second _ _ _ _ _ _ _ hAB]
        simp only [eT, eC, hone, hmone]
        simp only [colVal_pair_first, colVal_pair_second _ _ _ _ _ hAB]
        refine ⟨?_, ?_, ?_, ?_, ?_⟩
        all_goals try simp [updateCol]
        all_goals try ring
  | some s =>
      have hs2 : s ≠ "" := fun h => hs (by rw [h])
      have hse : (s == "") = false := by simp [hs2]
      simp only [hse, Bool.false_eq_true, if_false, Option.getD]
      by_cases ho : (jsToLower t0.status == "completed") = true <;>
        by_cases hn : (jsToLower s == "completed") = true
      · have hco : isCompletedStatus t0.status = true := ho
        have hcn : isCompletedStatus s = true := hn
        simp only [ho, hn, if_true, hco, hcn]
        rw [updateProjectCounts_pair_first _ _ _ _ _ _ _ hAB,
          updateProjectCounts_pair_first _ _ _ _ _ _ _ hAB,
          updateProjectCounts_pair_second _ _ _ _ _ _ _ hAB,
          updateProjectCounts_pair_second _ _ _ _ _ _ _ hAB]
        simp only [eT, eC, hone, hmone]
        simp only [colVal_pair_first, colVal_pair_second _ _ _ _ _ hAB]
        refine ⟨?_, ?_, ?_, ?_, ?_⟩
        all_goals try simp [updateCol]
        all_goals try ring
      · have hco : isCompletedStatus t0.status = true := ho
        have hcn : isCompletedStatus s = false := by
          simpa [isCompletedStatus] using hn
        simp only [ho, hn, if_true, Bool.false_eq_true, if_false, hco, hcn]
        rw [updateProjectCounts_pair_first _ _ _ _ _ _ _ hAB,
          updateProjectCounts_pair_first _ _ _ _ _ _ _ hAB,
          updateProjectCounts_pair_second _ _ _ _ _ _ _ hAB]
        simp only [eT, eC, hone, hmone]
        simp only [colVal_pair_first, colVal_pair_second _ _ _ _ _ hAB]
        refine ⟨?_, ?_, ?_, ?_, ?_⟩
        all_goals try simp [updateCol]
        all_goals try ring
      · have hco : isCompletedStatus t0.status = false := by
          simpa [isCompletedStatus] using ho
        have hcn : isCompletedStatus s = true := hn
        simp only [ho, hn, if_true, Bool.false_eq_true, if_false, hco, hcn]
        rw [updateProjectCounts_pair_first _ _ _ _ _ _ _ hAB,
          updateProjectCounts_pair_second _ _ _ _ _ _ _ hAB,
          updateProjectCounts_pair_second _ _ _ _ _ _ _ hAB]
        simp only [eT, eC, hone, hmone]
        simp only [colVal_pair_first, colVal_pair_second _ _ _ _ _ hAB]
        refine ⟨?_, ?_, ?_, ?_, ?_⟩
        all_goals try simp [updateCol]
        all_goals try ring
      · have hco : isCompletedStatus t0.status = false := by
          simpa [isCompletedStatus] using ho
        have hcn : isCompletedStatus s = false := by
          simpa [isCompletedStatus] using hn
        simp only [ho, hn, Bool.false_eq_true, if_false, hco, hcn]
        rw [updateProjectCounts_pair_first _ _ _ _ _ _ _ hAB,
          updateProjectCounts_pair_second _ _ _ _ _ _ _ hAB]
        simp only [eT, eC, hone, hmone]
        simp only [colVal_pair_first, colVal_pair_second _ _ _ _ _ hAB]
        refine ⟨?_, ?_, ?_, ?_, ?_⟩
        all_goals try simp [updateCol]
        all_goals try ring

/-- Witness for C2: a panel PATCH that sets a pending task to `Completed`
leaves the total column alone (part one), and a completed cutting task moved
from project A to project B with no status change moves both counters
(part two). -/
theorem cutting_transfer_counter_effect_witness :
    (colVal (taskPatch "panel" false ⟨[⟨"A", fun _ => 1⟩], [⟨1, "pending", "A"⟩], 2⟩ 1
        ⟨some "Completed", none, false⟩).1.projects "A" ("total_" ++ "panel")
      = colVal [⟨"A", fun _ => 1⟩] "A" ("total_" ++ "panel")) ∧
    colVal (cuttingPatch false ⟨[⟨"A", fun _ => 1⟩, ⟨"B", fun _ => 0⟩],
        [⟨1, "completed", "A"⟩], 2⟩ 1 ⟨none, some "B", false⟩).1.projects "A" "total_cutting"
      = (fun _ => (1 : Int)) "total_cutting" - 1 ∧
    colVal (cuttingPatch false ⟨[⟨"A", fun _ => 1⟩, ⟨"B", fun _ => 0⟩],
        [⟨1, "completed", "A"⟩], 2⟩ 1 ⟨none, some "B", false⟩).1.projects "A" "completed_cutting"
      = (fun _ => (1 : Int)) "completed_cutting"
        - (if isCompletedStatus "completed" then 1 else 0) ∧
    colVal (cuttingPatch false ⟨[⟨"A", fun _ => 1⟩, ⟨"B", fun _ => 0⟩],
        [⟨1, "completed", "A"⟩], 2⟩ 1 ⟨none, some "B", false⟩).1.projects "B" "total_cutting"
      = (fun _ => (0 : Int)) "total_cutting" + 1 ∧
    colVal (cuttingPatch false ⟨[⟨"A", fun _ => 1⟩, ⟨"B", fun _ => 0⟩],
        [⟨1, "completed", "A"⟩], 2⟩ 1 ⟨none, some "B", false⟩).1.projects "B" "completed_cutting"
      = (fun _ => (0 : Int)) "completed_cutting"
        + (if isCompletedStatus ((none : Option String).getD "completed") then 1 else 0) ∧
    colVal (cuttingPatch false ⟨[⟨"A", fun _ => 1⟩, ⟨"B", fun _ => 0⟩],
        [⟨1, "completed", "A"⟩], 2⟩ 1 ⟨none, some "B", false⟩).1.projects "A" "total_cutting"
      + colVal (cuttingPatch false ⟨[⟨"A", fun _ => 1⟩, ⟨"B", fun _ => 0⟩],
        [⟨1, "completed", "A"⟩], 2⟩ 1 ⟨none, some "B", false⟩).1.projects "B" "total_cutting"
      = (fun _ => (1 : Int)) "total_cutting" + (fun _ => (0 : Int)) "total_cutting" :=
  ⟨cutting_transfer_counter_effect.1 "panel" false
      ⟨[⟨"A", fun _ => 1⟩], [⟨1, "pending", "A"⟩], 2⟩ 1 ⟨some "Completed", none, false⟩ "A",
   cutting_transfer_counter_effect.2 (fun _ => 1) (fun _ => 0) [⟨1, "completed", "A"⟩] 2 1
      none false "B" ⟨1, "completed", "A"⟩ rfl (by decide) (by decide) (by decide)⟩

/-- Counterexample to C2 as stated, in three parts.  (i) The panel PATCH
handler — the same code serves the accessories, strip-curtain and system
routers — moves the row from project A to project B and answers 200, yet
adjusts no counter: A keeps total 1 and completed 1 although it lost its
completed task, and B stays at total 0 although it gained one.  (ii) A
cutting PATCH whose `project_no` is the present-but-empty string writes the
empty project number to the row, so the task leaves A, yet the truthiness
fallback treats the request as no transfer and A keeps total 1.  (iii) A
cutting transfer that also sends `status: ""` writes the non-completed empty
status to the row yet increments B's completed counter, because the old
status drives the comparison. -/
theorem project_reassignment_counterexamples :
    (taskPatch "panel" false ⟨[⟨"A", fun _ => 1⟩, ⟨"B", fun _ => 0⟩],
        [⟨1, "completed", "A"⟩], 2⟩ 1 ⟨none, some "B", false⟩).1.tasks
      = [⟨1, "completed", "B"⟩] ∧
    (taskPatch "panel" false ⟨[⟨"A", fun _ => 1⟩, ⟨"B", fun _ => 0⟩],
        [⟨1, "completed", "A"⟩], 2⟩ 1 ⟨none, some "B", false⟩).2.2 = 200 ∧
    colVal (taskPatch "panel" false ⟨[⟨"A", fun _ => 1⟩, ⟨"B", fun _ => 0⟩],
        [⟨1, "completed", "A"⟩], 2⟩ 1 ⟨none, some "B", false⟩).1.projects
        "A" "total_panel" = 1 ∧
    colVal (taskPatch "panel" false ⟨[⟨"A", fun _ => 1⟩, ⟨"B", fun _ => 0⟩],
        [⟨1, "completed", "A"⟩], 2⟩ 1 ⟨none, some "B", false⟩).1.projects
        "B" "total_panel" = 0 ∧
    colVal (taskPatch "panel" false ⟨[⟨"A", fun _ => 1⟩, ⟨"B", fun _ => 0⟩],
        [⟨1, "completed", "A"⟩], 2⟩ 1 ⟨none, some "B", false⟩).1.projects
        "A" "completed_panel" = 1 ∧
    (cuttingPatch false ⟨[⟨"A", fun _ => 1⟩], [⟨1, "completed", "A"⟩], 2⟩ 1
        ⟨none, some "", false⟩).1.tasks = [⟨1, "completed", ""⟩] ∧
    colVal (cuttingPatch false ⟨[⟨"A", fun _ => 1⟩], [⟨1, "completed", "A"⟩], 2⟩ 1
        ⟨none, some "", false⟩).1.projects "A" "total_cutting" = 1 ∧
    (cuttingPatch false ⟨[⟨"A", fun _ => 1⟩, ⟨"B", fun _ => 0⟩], [⟨1, "completed", "A"⟩], 2⟩ 1
        ⟨some "", some "B", false⟩).1.tasks = [⟨1, "", "B"⟩] ∧
    isCompletedStatus "" = false ∧
    colVal (cuttingPatch false ⟨[⟨"A", fun _ => 1⟩, ⟨"B", fun _ => 0⟩], [⟨1, "completed", "A"⟩], 2⟩ 1
        ⟨some "", some "B", false⟩).1.projects "B" "completed_cutting" = 1 ∧
    colVal (cuttingPatch false ⟨[⟨"A", fun _ => 1⟩, ⟨"B", fun _ => 0⟩], [⟨1, "completed", "A"⟩], 2⟩ 1
        ⟨some "", some "B", false⟩).1.projects "B" "total_cutting" = 1 := by
  decide

/-- C8.  If the fetch of any one of the six aggregated categories fails,
`calculateCompletionPercentage` returns an error (no partial completion
object), the per-project entry of GET /api/projects degrades to the
zero-filled completion object, and the list request itself still
succeeds. -/
theorem aggregation_all_or_nothing_and_list_degrades
    (fail : String → Bool) (tables : TaskTables) (pno : String) (projectNos : List String)
    (h : (fail "panel_tasks" || fail "cutting_tasks" || fail "door_tasks" ||
          fail "strip_curtain_tasks" || fail "accessories_tasks" || fail "system_tasks") = true) :
    (∃ e, calculateCompletionPercentage fail tables pno = Except.error e) ∧
    projectCompletionEntry fail tables pno = zeroCompletion ∧
    ∃ l, getProjectsHandler fail tables projectNos = Except.ok l := by
  have herr : ∃ e, calculateCompletionPercentage fail tables pno = Except.error e := by
    unfold calculateCompletionPercentage fetchCat
    by_cases h1 : fail "panel_tasks" = true
    · exact ⟨"query failed: panel_tasks", by simp [h1, Bind.bind, Except.bind]⟩
    by_cases h2 : fail "cutting_tasks" = true
    · exact ⟨"query failed: cutting_tasks", by simp [h1, h2, Bind.bind, Except.bind]⟩
    by_cases h3 : fail "door_tasks" = true
    · exact ⟨"query failed: door_tasks", by simp [h1, h2, h3, Bind.bind, Except.bind]⟩
    by_cases h4 : fail "strip_curtain_tasks" = true
    · exact ⟨"query failed: strip_curtain_tasks", by simp [h1, h2, h3, h4, Bind.bind, Except.bind]⟩
    by_cases h5 : fail "accessories_tasks" = true
    · exact ⟨"query failed: accessories_tasks", by simp [h1, h2, h3, h4, h5, Bind.bind, Except.bind]⟩
    by_cases h6 : fail "system_tasks" = true
    · exact ⟨"query failed: system_tasks", by simp [h1, h2, h3, h4, h5, h6, Bind.bind, Except.bind]⟩
    exact absurd h (by simp [h1, h2, h3, h4, h5, h6])
  refine ⟨herr, ?_, ⟨_, rfl⟩⟩
  obtain ⟨e, he⟩ := herr
  unfold projectCompletionEntry
  rw [he]

/-- Witness for C8: the door-tasks fetch fails. -/
theorem aggregation_all_or_nothing_witness :
    (∃ e, calculateCompletionPercentage (fun n => n == "door_tasks")
        ⟨[], [], [], [], [], []⟩ "P1" = Except.error e) ∧
    projectCompletionEntry (fun n => n == "door_tasks") ⟨[], [], [], [], [], []⟩ "P1"
      = zeroCompletion ∧
    ∃ l, getProjectsHandler (fun n => n == "door_tasks") ⟨[], [], [], [], [], []⟩ ["P1"]
      = Except.ok l :=
  aggregation_all_or_nothing_and_list_degrades (fun n => n == "door_tasks")
    ⟨[], [], [], [], [], []⟩ "P1" ["P1"] (by decide)

/-- C1 (amended).  For every task category served by the common router, for
every sequence of create/update/delete operations on that category within
one project — starting from a fresh project with zero counters — in which
every update either omits the status field or supplies a nonempty status
string, every Counter Updater call succeeds AND after each operation the
project total counter equals the live row count and the completed counter
equals the count of live rows whose status lowercases to "completed".  (The
statement quantifies over arbitrary such sequences, so it covers every
prefix, i.e. the invariant holds after each operation.)  The amendment — the
truthy-status proviso — is forced by the counterexample, where a PATCH body
with the present-but-empty status string breaks the invariant even though
every Counter Updater call made so far succeeded. -/
theorem counter_invariant_truthy_sequences (cat p : String) (ops : List Op)
    (hops : ∀ op ∈ ops, goodOp op = true) :
    countersMatch (runOps cat p ops).1 cat p ∧ callsOk (runOps cat p ops).2 = true := by
  have hinit : StInv p (initState p) := by
    refine ⟨⟨fun _ => 0, rfl⟩, ?_, ?_, ?_⟩
    · intro t ht
      cases ht
    · exact List.Pairwise.nil
    · intro t ht
      cases ht
  have hmatch : countersMatch (initState p) cat p := by
    constructor
    · rw [show (initState p).projects = [⟨p, fun _ => 0⟩] from rfl, colVal_single]
      rfl
    · rw [show (initState p).projects = [⟨p, fun _ => 0⟩] from rfl, colVal_single]
      rfl
  have h := runOps_inv cat p ops ((initState p, [])) hops hinit hmatch rfl
  exact ⟨h.2.1, h.2.2⟩

/-- Witness for C1: create a completed panel task, set it back to pending,
then delete it. -/
theorem counter_invariant_truthy_sequences_witness :
    countersMatch (runOps "panel" "P1"
        [Op.create "t" (some "Completed"), Op.update 1 (some "pending") false,
         Op.delete 1]).1 "panel" "P1" ∧
    callsOk (runOps "panel" "P1"
        [Op.create "t" (some "Completed"), Op.update 1 (some "pending") false,
         Op.delete 1]).2 = true :=
  counter_invariant_truthy_sequences "panel" "P1"
    [Op.create "t" (some "Completed"), Op.update 1 (some "pending") false, Op.delete 1]
    (by decide)

/-- Counterexample to C1 as stated: after creating a task with status
`completed` and PATCHing it with the present-but-empty status `""`, every
Counter Updater call of the trace succeeded, yet the completed counter (1)
no longer equals the live completed row count (0) — the row now carries the
non-completed empty status. -/
theorem counter_invariant_fails_on_empty_status :
    callsOk (runOps "panel" "P1" c1BadOps).2 = true ∧
    ¬ countersMatch (runOps "panel" "P1" c1BadOps).1 "panel" "P1" :=
  ⟨by decide, by decide⟩

end UPS
